import Mathlib

/-!
Verification of the configuration layer of the
`nextjs-drizzle-better-auth` template.

The repository consists of three configuration modules:
* `drizzle.config.ts` — the static drizzle-kit migration configuration;
* `lib/db/index.ts` — construction of the `pg` connection pool and the
  drizzle `db` handle, bound to the schema module;
* `lib/auth.ts` — construction of the better-auth options record
  (drizzle adapter, secret, email/password method, trusted origins,
  plugins).

Every module-level construction is embedded as a pure function of the
process environment.  The third-party constructors (`pg.Pool`,
`drizzle`, `drizzleAdapter`, `betterAuth`) are embedded at the data
level: each captures the configuration the repository hands it, which
is exactly the repository's own observable contribution.

TypeScript's non-null assertion `!` (as in `process.env.DATABASE_URL!`)
is a compile-time-only annotation erased at runtime, so an environment
read `process.env.X!` is embedded as the `Option String` value of `X`.
-/

namespace NextjsDrizzleBetterAuth

/-- The process environment as this repository reads it: the three
variables its code consumes (`DATABASE_URL`, `BETTER_AUTH_SECRET`,
`BETTER_AUTH_URL`), the public-facing duplicate the README declares
(`NEXT_PUBLIC_BETTER_AUTH_URL`, read only by out-of-scope client code),
and all remaining variables as a lookup function. -/
structure Env where
  DATABASE_URL : Option String
  BETTER_AUTH_SECRET : Option String
  BETTER_AUTH_URL : Option String
  NEXT_PUBLIC_BETTER_AUTH_URL : Option String
  otherVars : String → Option String

/-! ## Schema module (`lib/db/schema`)

Modelled from the spec: the schema module `lib/db/schema` is code of
this repository that is not under `src/` (only its importers
`lib/db/index.ts` and `lib/auth.ts` are).  The spec describes it as
"a static mapping from logical table names (user, session, account,
verification) to column definitions; immutable after definition".
Column definitions are not given by the spec, so a table is embedded
as its logical name. -/

/-- A drizzle table object, identified by its logical table name.
Modelled from the spec: column definitions are out of the spec's scope. -/
structure Table where
  tableName : String
deriving DecidableEq

/-- Modelled from the spec: the `user` table export of `lib/db/schema`. -/
def user : Table := ⟨"user"⟩

/-- Modelled from the spec: the `session` table export of `lib/db/schema`. -/
def session : Table := ⟨"session"⟩

/-- Modelled from the spec: the `account` table export of `lib/db/schema`. -/
def account : Table := ⟨"account"⟩

/-- Modelled from the spec: the `verification` table export of `lib/db/schema`. -/
def verification : Table := ⟨"verification"⟩

/-- The namespace object produced by `import * as schema from "./schema"`
in `lib/db/index.ts`: the four table exports of the schema module. -/
structure SchemaModule where
  user : Table
  session : Table
  account : Table
  verification : Table
deriving DecidableEq

/-- The single shared schema module instance. -/
def schema : SchemaModule :=
  { user := user
    session := session
    account := account
    verification := verification }

/-! ## Database connector (`lib/db/index.ts`)

Source:
```
const pool = new Pool({ connectionString: env.DATABASE_URL });
export const db = drizzle({ client: pool, schema });
```
-/

/-- The configuration record passed to the `pg` `Pool` constructor.
`connectionString` is optional in `pg`, hence `Option String`; the
source passes `env.DATABASE_URL` with no validation. -/
structure PoolConfig where
  connectionString : Option String
deriving DecidableEq

/-- A `pg` connection pool.  External constructor, embedded at the data
level: the pool object captures the configuration it was built from. -/
structure Pool where
  config : PoolConfig
deriving DecidableEq

/-- `new Pool(config)`. -/
def Pool.new (c : PoolConfig) : Pool := ⟨c⟩

/-- The drizzle database handle: the client (pool) and the schema
descriptor it is bound to. -/
structure Db where
  client : Pool
  schema : SchemaModule
deriving DecidableEq

/-- `drizzle({ client, schema })`: external constructor, embedded at the
data level as the handle wrapping its client and schema. -/
def drizzle (client : Pool) (s : SchemaModule) : Db :=
  { client := client, schema := s }

/-- The two module-level bindings of `lib/db/index.ts`. -/
structure DbModule where
  pool : Pool
  db : Db
deriving DecidableEq

/-- Module initialization of `lib/db/index.ts`: create the pool from
`env.DATABASE_URL`, then the `db` handle bound to that pool and to the
shared schema module. -/
def dbModule (e : Env) : DbModule :=
  let pool := Pool.new { connectionString := e.DATABASE_URL }
  { pool := pool
    db := drizzle pool schema }

/-! ## Migration config (`drizzle.config.ts`) -/

/-- The `dbCredentials` entry of the drizzle-kit config. -/
structure DbCredentials where
  url : Option String
deriving DecidableEq

/-- The record passed to drizzle-kit's `defineConfig`.  It is a static
declaration consumed by the external CLI; the repository implements no
migration logic of its own. -/
structure DrizzleConfig where
  schema : String
  dialect : String
  out : String
  dbCredentials : DbCredentials
deriving DecidableEq

/-- The default export of `drizzle.config.ts` (`defineConfig({...})`;
`defineConfig` is the identity at the data level). -/
def drizzleConfig (e : Env) : DrizzleConfig :=
  { schema := "./lib/db/schema"
    dialect := "postgresql"
    out := "./lib/db/migrations"
    dbCredentials := { url := e.DATABASE_URL } }

/-! ## Auth configurator (`lib/auth.ts`) -/

/-- The `schema` record passed to `drizzleAdapter` in `lib/auth.ts`:
four named entries, each referring to a table object imported from
`@/lib/db/schema`. -/
structure AdapterSchema where
  user : Table
  session : Table
  account : Table
  verification : Table
deriving DecidableEq

/-- The second argument of `drizzleAdapter`. -/
structure DrizzleAdapterConfig where
  provider : String
  schema : AdapterSchema
deriving DecidableEq

/-- The database adapter produced by `drizzleAdapter(db, config)`.
External constructor, embedded at the data level: it captures the `db`
handle and the adapter configuration. -/
structure DatabaseAdapter where
  db : Db
  provider : String
  schema : AdapterSchema
deriving DecidableEq

/-- `drizzleAdapter(db, config)`. -/
def drizzleAdapter (db : Db) (c : DrizzleAdapterConfig) : DatabaseAdapter :=
  { db := db, provider := c.provider, schema := c.schema }

/-- The `emailAndPassword` options record. -/
structure EmailAndPassword where
  enabled : Bool
  autoSignIn : Bool
deriving DecidableEq

/-- The plugins the repository installs (`nextCookies()` only). -/
inductive Plugin where
  | nextCookies
deriving DecidableEq

/-- The options record `lib/auth.ts` passes to `betterAuth`. -/
structure BetterAuthOptions where
  database : DatabaseAdapter
  secret : Option String
  emailAndPassword : EmailAndPassword
  trustedOrigins : List (Option String)
  plugins : List Plugin
deriving DecidableEq

/-- The argument of `betterAuth` in `lib/auth.ts`, field by field. -/
def authOptions (e : Env) : BetterAuthOptions :=
  { database :=
      drizzleAdapter (dbModule e).db
        { provider := "pg"
          schema :=
            { user := user
              session := session
              account := account
              verification := verification } }
    secret := e.BETTER_AUTH_SECRET
    emailAndPassword := { enabled := true, autoSignIn := false }
    trustedOrigins := [e.BETTER_AUTH_URL]
    plugins := [Plugin.nextCookies] }

/-- The auth service object.  `betterAuth` is external; at the data
level the object holds the options record it was constructed from. -/
structure Auth where
  options : BetterAuthOptions
deriving DecidableEq

/-- `betterAuth(options)`. -/
def betterAuth (o : BetterAuthOptions) : Auth := ⟨o⟩

/-- The `auth` export of `lib/auth.ts`. -/
def auth (e : Env) : Auth := betterAuth (authOptions e)

/-! ## Pool lifecycle trace

The lifecycle of the connection pool, abstracted as the sequence of
pool operations each module's initialization performs.  A reviewer can
check each trace against the module's source text: `lib/db/index.ts`
contains exactly one `new Pool(...)` and the repository contains no
`pool.end()` / close call and no reassignment of `pool` or `db`
(both are `const` bindings). -/

/-- Operations on the connection pool that could occur in source text. -/
inductive PoolAction where
  | create
  | close
  | replace
deriving DecidableEq

/-- Pool operations performed by `lib/db/index.ts` at module
initialization: the single `new Pool(...)`. -/
def dbModulePoolTrace : List PoolAction := [PoolAction.create]

/-- Pool operations performed by `drizzle.config.ts`: none (it is a
static declaration). -/
def drizzleConfigPoolTrace : List PoolAction := []

/-- Pool operations performed by `lib/auth.ts`: none (it only
references the imported `db` handle). -/
def authModulePoolTrace : List PoolAction := []

/-- All pool operations in the repository's source, in module
initialization order. -/
def repoPoolTrace : List PoolAction :=
  dbModulePoolTrace ++ drizzleConfigPoolTrace ++ authModulePoolTrace

/-! ## Dialect interpretation

The documented meanings of the flavor enumerations of the two external
libraries: drizzle-kit's `dialect` field ranges over `"postgresql"`,
`"mysql"`, `"sqlite"` (and variants), and better-auth's drizzle adapter
`provider` field ranges over `"pg"`, `"mysql"`, `"sqlite"`. -/

/-- The SQL flavor a configuration targets. -/
inductive SqlFlavor where
  | postgres
  | mysql
  | sqlite
deriving DecidableEq

/-- The flavor denoted by a drizzle-kit `dialect` string. -/
def flavorOfDialect : String → Option SqlFlavor
  | "postgresql" => some SqlFlavor.postgres
  | "mysql" => some SqlFlavor.mysql
  | "sqlite" => some SqlFlavor.sqlite
  | _ => none

/-- The flavor denoted by a better-auth drizzle-adapter `provider`
string. -/
def flavorOfProvider : String → Option SqlFlavor
  | "pg" => some SqlFlavor.postgres
  | "mysql" => some SqlFlavor.mysql
  | "sqlite" => some SqlFlavor.sqlite
  | _ => none

/-! ## Concrete environments used by witnesses -/

/-- A concrete environment with all variables set. -/
def envA : Env :=
  { DATABASE_URL := some "postgresql://localhost:5432/app"
    BETTER_AUTH_SECRET := some "s3cret"
    BETTER_AUTH_URL := some "http://localhost:3000"
    NEXT_PUBLIC_BETTER_AUTH_URL := some "http://localhost:3000"
    otherVars := fun _ => none }

/-- A second environment agreeing with `envA` on the three variables the
repository's code reads, but differing on `NEXT_PUBLIC_BETTER_AUTH_URL`
and on every other variable. -/
def envB : Env :=
  { DATABASE_URL := some "postgresql://localhost:5432/app"
    BETTER_AUTH_SECRET := some "s3cret"
    BETTER_AUTH_URL := some "http://localhost:3000"
    NEXT_PUBLIC_BETTER_AUTH_URL := none
    otherVars := fun k => some k }

/-! ## Claims -/

/-- Claim C3: the schema descriptor bound to the `db` handle and the
schema descriptor passed to the auth configurator name the same four
tables — user, session, account, verification — and each of the auth
configurator's four entries refers to the identically named table
object of the single shared schema module. -/
theorem schema_descriptors_consistent (e : Env) :
    (dbModule e).db.schema = schema ∧
    (authOptions e).database.schema.user = schema.user ∧
    (authOptions e).database.schema.session = schema.session ∧
    (authOptions e).database.schema.account = schema.account ∧
    (authOptions e).database.schema.verification = schema.verification ∧
    [schema.user.tableName, schema.session.tableName,
      schema.account.tableName, schema.verification.tableName] =
      ["user", "session", "account", "verification"] :=
  ⟨rfl, rfl, rfl, rfl, rfl, rfl⟩

/-- Claim C4: the auth options record constructed at startup holds the
secret key equal to the `BETTER_AUTH_SECRET` environment value, the
trusted-origin list equal to the one-element list containing the
`BETTER_AUTH_URL` environment value, the email/password auth method
enabled, and a database adapter reference bound to the connector's `db`
handle. -/
theorem auth_config_fields (e : Env) :
    (authOptions e).secret = e.BETTER_AUTH_SECRET ∧
    (authOptions e).trustedOrigins = [e.BETTER_AUTH_URL] ∧
    (authOptions e).emailAndPassword.enabled = true ∧
    (authOptions e).database.db = (dbModule e).db :=
  ⟨rfl, rfl, rfl, rfl⟩

/-- Claim C5: the schema migration config is the static record with
schema source directory `./lib/db/schema`, migration output directory
`./lib/db/migrations`, dialect `postgresql`, and database credentials
whose url equals the `DATABASE_URL` environment value; being a plain
record, it contains no migration logic of its own. -/
theorem drizzle_config_static (e : Env) :
    drizzleConfig e =
      { schema := "./lib/db/schema"
        dialect := "postgresql"
        out := "./lib/db/migrations"
        dbCredentials := { url := e.DATABASE_URL } } :=
  rfl

/-- Claim C6: any two environments agreeing on `DATABASE_URL`,
`BETTER_AUTH_SECRET` and `BETTER_AUTH_URL` yield identical
configuration objects: no other environment variable influences the
migration config, the pool/db connector, or the auth configuration. -/
theorem config_noninterference (e1 e2 : Env)
    (hdb : e1.DATABASE_URL = e2.DATABASE_URL)
    (hsec : e1.BETTER_AUTH_SECRET = e2.BETTER_AUTH_SECRET)
    (hurl : e1.BETTER_AUTH_URL = e2.BETTER_AUTH_URL) :
    drizzleConfig e1 = drizzleConfig e2 ∧
    dbModule e1 = dbModule e2 ∧
    authOptions e1 = authOptions e2 ∧
    auth e1 = auth e2 := by
  refine ⟨?_, ?_, ?_, ?_⟩ <;>
    simp [drizzleConfig, dbModule, authOptions, auth, betterAuth,
      drizzleAdapter, Pool.new, drizzle, hdb, hsec, hurl]

/-- Witness for C6: the two concrete environments `envA` and `envB`
agree on the three declared inputs (but nowhere else) and get identical
configuration objects. -/
theorem config_noninterference_witness :
    (envA.DATABASE_URL = envB.DATABASE_URL ∧
     envA.BETTER_AUTH_SECRET = envB.BETTER_AUTH_SECRET ∧
     envA.BETTER_AUTH_URL = envB.BETTER_AUTH_URL) ∧
    (drizzleConfig envA = drizzleConfig envB ∧
     dbModule envA = dbModule envB ∧
     authOptions envA = authOptions envB ∧
     auth envA = auth envB) :=
  ⟨⟨rfl, rfl, rfl⟩, config_noninterference envA envB rfl rfl rfl⟩

/-- Claim C7: exactly one connection pool is created, at module
initialization of the database connector; the `db` handle is bound to
that same pool; and the repository's pool-operation trace contains no
close and no replacement of the pool after creation. -/
theorem single_pool_lifetime (e : Env) :
    List.count PoolAction.create repoPoolTrace = 1 ∧
    List.count PoolAction.close repoPoolTrace = 0 ∧
    List.count PoolAction.replace repoPoolTrace = 0 ∧
    (dbModule e).db.client = (dbModule e).pool :=
  ⟨by decide, by decide, by decide, rfl⟩

/-- Claim C8: for every connection string present in `DATABASE_URL`,
module initialization of the database connector produces a handle `db`
bound to the fixed schema descriptor, whose client pool carries that
connection string. -/
theorem db_handle_on_valid_url (e : Env) (url : String)
    (h : e.DATABASE_URL = some url) :
    (dbModule e).db.schema = schema ∧
    (dbModule e).db.client.config.connectionString = some url := by
  refine ⟨rfl, ?_⟩
  simp only [dbModule, Pool.new, drizzle, h]

/-- Witness for C8: at the concrete environment `envA`, whose
`DATABASE_URL` is present, the `db` handle is bound to the schema
module and to that connection string. -/
theorem db_handle_on_valid_url_witness :
    envA.DATABASE_URL = some "postgresql://localhost:5432/app" ∧
    ((dbModule envA).db.schema = schema ∧
     (dbModule envA).db.client.config.connectionString =
       some "postgresql://localhost:5432/app") :=
  ⟨rfl, db_handle_on_valid_url envA "postgresql://localhost:5432/app" rfl⟩

/-- Claim C9: the email/password configuration enables the method but
sets `autoSignIn` to `false`, so sign-in is a separate, explicit
operation rather than an automatic consequence of sign-up. -/
theorem autoSignIn_disabled (e : Env) :
    (authOptions e).emailAndPassword.autoSignIn = false ∧
    (authOptions e).emailAndPassword.enabled = true :=
  ⟨rfl, rfl⟩

/-- Claim C10: the migration config declares dialect `postgresql` and
the auth configurator's database adapter declares provider `pg`, and
both strings denote the same SQL flavor (PostgreSQL). -/
theorem dialect_consistent_postgres (e : Env) :
    (drizzleConfig e).dialect = "postgresql" ∧
    (authOptions e).database.provider = "pg" ∧
    flavorOfDialect (drizzleConfig e).dialect = some SqlFlavor.postgres ∧
    flavorOfProvider (authOptions e).database.provider =
      some SqlFlavor.postgres :=
  ⟨rfl, rfl, rfl, rfl⟩

end NextjsDrizzleBetterAuth
